import Mathlib

/-!
# AuraLock presence decision engine — verification

Shallow embedding of src/run_auralock.py:

* `rssi_to_distance` — the distance estimator (log-distance path-loss model),
  modelled over exact reals with `EReal` as codomain so that the infinite
  sentinel result (rssi == 0) is representable.
* `detection_callback` — the presence state machine invoked once per sample,
  modelled as a pure transition function on `PresenceState` returning the new
  state together with the emitted intent.  The side-effecting calls
  `lock_screen` and `unlock_screen` become intent emissions: `lock_screen`
  runs its commands unconditionally, `unlock_screen` only when the
  `screen_locked` flag is set, exactly as in the source.  Distances are
  `WithTop ℚ` (the top element standing for the infinite distance the
  estimator can produce); timestamps and thresholds are `ℚ`.
-/

namespace AuraLock

/-- Calibration parameters: RSSI_AT_1M and PATH_LOSS_EXPONENT in the source. -/
structure CalibrationParams where
  referenceStrengthAt1m : ℝ
  pathLossExponent : ℝ

/-- Embedding of rssi_to_distance from the source: if rssi == 0 the result is
the infinite distance, otherwise 10 ** ((RSSI_AT_1M - rssi) / (10 *
PATH_LOSS_EXPONENT)) metres, times 100 to give centimetres. -/
noncomputable def rssi_to_distance (p : CalibrationParams) (rssi : ℝ) : EReal :=
  if rssi = 0 then ⊤
  else ((10 : ℝ) ^ ((p.referenceStrengthAt1m - rssi) / (10 * p.pathLossExponent)) * 100 : ℝ)

/-- The view the engine has of the session lock state (the screen_locked
flag in the source). -/
inductive LockState
  | Locked
  | Unlocked
deriving DecidableEq, Repr

/-- Intents emitted towards the session controller. -/
inductive Intent
  | LockIntent
  | UnlockIntent
deriving DecidableEq, Repr

/-- Mutable runtime state of the presence state machine: screen_locked and
distance_exceed_start_time in the source. -/
structure PresenceState where
  lockState : LockState
  awaySince : Option ℚ
deriving DecidableEq, Repr

/-- Policy thresholds: NEARBY_DISTANCE_CM, DISTANCE_THRESHOLD_CM and
TIME_THRESHOLD_SECONDS in the source. -/
structure PolicyThresholds where
  nearbyDistanceCm : ℚ
  awayDistanceCm : ℚ
  awayDurationSeconds : ℚ
deriving DecidableEq, Repr

/-- The data-model invariant on thresholds: the dead zone is well formed. -/
def PolicyThresholds.Valid (th : PolicyThresholds) : Prop :=
  th.nearbyDistanceCm ≤ th.awayDistanceCm

instance (th : PolicyThresholds) : Decidable th.Valid := by
  unfold PolicyThresholds.Valid; infer_instance

/-- Embedding of lock_screen from the source: it runs the lock command and
the notification unconditionally (there is no check of screen_locked) and
then sets screen_locked = True. -/
def lock_screen (s : PresenceState) : PresenceState × Option Intent :=
  (⟨LockState.Locked, s.awaySince⟩, some Intent.LockIntent)

/-- Embedding of unlock_screen from the source: it acts only if
screen_locked is set, in which case it runs the unlock command and sets
screen_locked = False; otherwise it does nothing. -/
def unlock_screen (s : PresenceState) : PresenceState × Option Intent :=
  match s.lockState with
  | LockState.Locked => (⟨LockState.Unlocked, s.awaySince⟩, some Intent.UnlockIntent)
  | LockState.Unlocked => (s, none)

/-- Embedding of the body of detection_callback from the source, after the
distance has been computed: one transition of the presence state machine for
a sample with estimated distance `distance` observed at time `now`. -/
def detection_callback (th : PolicyThresholds) (s : PresenceState)
    (distance : WithTop ℚ) (now : ℚ) : PresenceState × Option Intent :=
  if distance ≤ (th.nearbyDistanceCm : WithTop ℚ) then
    (⟨(unlock_screen s).1.lockState, none⟩, (unlock_screen s).2)
  else if (th.awayDistanceCm : WithTop ℚ) < distance then
    match s.awaySince with
    | none => (⟨s.lockState, some now⟩, none)
    | some t0 =>
      if th.awayDurationSeconds < now - t0 then
        (⟨(lock_screen s).1.lockState, none⟩, (lock_screen s).2)
      else
        (s, none)
  else
    (⟨s.lockState, none⟩, none)

/-- Fold detection_callback over a list of (distance, timestamp) samples,
collecting the emitted intents in order. -/
def runSamples (th : PolicyThresholds) (s : PresenceState)
    (samples : List (WithTop ℚ × ℚ)) : PresenceState × List (Option Intent) :=
  match samples with
  | [] => (s, [])
  | (d, t) :: rest =>
    ((runSamples th (detection_callback th s d t).1 rest).1,
      (detection_callback th s d t).2
        :: (runSamples th (detection_callback th s d t).1 rest).2)

/-! ## Branch lemmas for the transition function -/

theorem detection_callback_nearby (th : PolicyThresholds) (s : PresenceState)
    (d : WithTop ℚ) (now : ℚ) (h : d ≤ (th.nearbyDistanceCm : WithTop ℚ)) :
    detection_callback th s d now
      = (⟨(unlock_screen s).1.lockState, none⟩, (unlock_screen s).2) := by
  simp only [detection_callback, if_pos h]

theorem detection_callback_deadzone (th : PolicyThresholds) (s : PresenceState)
    (d : WithTop ℚ) (now : ℚ)
    (h1 : ¬ d ≤ (th.nearbyDistanceCm : WithTop ℚ))
    (h2 : ¬ (th.awayDistanceCm : WithTop ℚ) < d) :
    detection_callback th s d now = (⟨s.lockState, none⟩, none) := by
  simp only [detection_callback, if_neg h1, if_neg h2]

theorem detection_callback_away_start (th : PolicyThresholds) (s : PresenceState)
    (d : WithTop ℚ) (now : ℚ)
    (hs : s.awaySince = none)
    (h1 : ¬ d ≤ (th.nearbyDistanceCm : WithTop ℚ))
    (h2 : (th.awayDistanceCm : WithTop ℚ) < d) :
    detection_callback th s d now = (⟨s.lockState, some now⟩, none) := by
  simp only [detection_callback, if_neg h1, if_pos h2, hs]

theorem detection_callback_away_wait (th : PolicyThresholds) (s : PresenceState)
    (d : WithTop ℚ) (now : ℚ) (t0 : ℚ)
    (hs : s.awaySince = some t0)
    (h1 : ¬ d ≤ (th.nearbyDistanceCm : WithTop ℚ))
    (h2 : (th.awayDistanceCm : WithTop ℚ) < d)
    (h3 : ¬ th.awayDurationSeconds < now - t0) :
    detection_callback th s d now = (s, none) := by
  simp only [detection_callback, if_neg h1, if_pos h2, hs, if_neg h3]

theorem detection_callback_away_fire (th : PolicyThresholds) (s : PresenceState)
    (d : WithTop ℚ) (now : ℚ) (t0 : ℚ)
    (hs : s.awaySince = some t0)
    (h1 : ¬ d ≤ (th.nearbyDistanceCm : WithTop ℚ))
    (h2 : (th.awayDistanceCm : WithTop ℚ) < d)
    (h3 : th.awayDurationSeconds < now - t0) :
    detection_callback th s d now
      = (⟨LockState.Locked, none⟩, some Intent.LockIntent) := by
  simp only [detection_callback, if_neg h1, if_pos h2, hs, if_pos h3, lock_screen]

theorem not_le_nearby_of_away_lt (th : PolicyThresholds) (hv : th.Valid)
    {d : WithTop ℚ} (hd : (th.awayDistanceCm : WithTop ℚ) < d) :
    ¬ d ≤ (th.nearbyDistanceCm : WithTop ℚ) :=
  fun hle => absurd hd (not_lt.mpr (hle.trans (WithTop.coe_le_coe.mpr hv)))

theorem awaySince_cleared_of_le_away (th : PolicyThresholds) (s : PresenceState)
    (d : WithTop ℚ) (now : ℚ) (h : d ≤ (th.awayDistanceCm : WithTop ℚ)) :
    (detection_callback th s d now).1.awaySince = none ∧
      (detection_callback th s d now).2 ≠ some Intent.LockIntent := by
  by_cases h1 : d ≤ (th.nearbyDistanceCm : WithTop ℚ)
  · rw [detection_callback_nearby th s d now h1]
    obtain ⟨lk, aw⟩ := s
    cases lk <;> simp [unlock_screen]
  · rw [detection_callback_deadzone th s d now h1 (not_lt.mpr h)]
    simp

end AuraLock

open AuraLock

namespace AuraLockClaims

/-- C1 (counterexample): with thresholds (100, 300, 5), state already Locked
with awaySince = some 0, a sample at distance 350 at time 6 (so elapsed 6 > 5)
still emits a lock intent: the source function lock_screen runs
unconditionally, contradicting the claim that no lock intent is emitted when
lockState is already Locked. -/
theorem C1_counterexample :
    (⟨LockState.Locked, some 0⟩ : PresenceState).lockState = LockState.Locked ∧
    detection_callback ⟨100, 300, 5⟩ ⟨LockState.Locked, some 0⟩
        ((350 : ℚ) : WithTop ℚ) 6
      = (⟨LockState.Locked, none⟩, some Intent.LockIntent) :=
  ⟨rfl,
    detection_callback_away_fire ⟨100, 300, 5⟩ ⟨LockState.Locked, some 0⟩
      ((350 : ℚ) : WithTop ℚ) 6 0 rfl (by decide) (by decide) (by norm_num)⟩

/-- C1 (amended): when awaySince = some t0, the distance strictly exceeds
awayDistanceCm and the elapsed time strictly exceeds awayDurationSeconds, a
lock intent is emitted regardless of the current lockState (lock_screen runs
unconditionally), lockState becomes Locked, and awaySince is reset to none. -/
theorem C1_lock_fires_regardless (th : PolicyThresholds) (hv : th.Valid)
    (s : PresenceState) (t0 : ℚ) (d : WithTop ℚ) (now : ℚ)
    (hs : s.awaySince = some t0)
    (hd : (th.awayDistanceCm : WithTop ℚ) < d)
    (ht : th.awayDurationSeconds < now - t0) :
    detection_callback th s d now
      = (⟨LockState.Locked, none⟩, some Intent.LockIntent) :=
  detection_callback_away_fire th s d now t0 hs
    (not_le_nearby_of_away_lt th hv hd) hd ht

/-- Witness for C1_lock_fires_regardless at a concrete input. -/
theorem C1_lock_fires_regardless_witness :
    (⟨100, 300, 5⟩ : PolicyThresholds).Valid ∧
    detection_callback ⟨100, 300, 5⟩ ⟨LockState.Unlocked, some 0⟩
        ((350 : ℚ) : WithTop ℚ) 6
      = (⟨LockState.Locked, none⟩, some Intent.LockIntent) :=
  ⟨by decide,
    C1_lock_fires_regardless ⟨100, 300, 5⟩ (by decide) ⟨LockState.Unlocked, some 0⟩
      0 ((350 : ℚ) : WithTop ℚ) 6 rfl (by decide) (by norm_num)⟩

/-- C2: from awaySince = none, a sample with distance above awayDistanceCm at
t1 followed by a sample with distance at or below awayDistanceCm at a later
time t2 never emits a lock intent, and leaves awaySince = none. -/
theorem C2_debounce_no_lock (th : PolicyThresholds) (lk : LockState)
    (d1 d2 : WithTop ℚ) (t1 t2 : ℚ)
    (h1 : (th.awayDistanceCm : WithTop ℚ) < d1)
    (h2 : d2 ≤ (th.awayDistanceCm : WithTop ℚ))
    (_h12 : t1 ≤ t2) :
    (detection_callback th ⟨lk, none⟩ d1 t1).2 ≠ some Intent.LockIntent ∧
    (detection_callback th (detection_callback th ⟨lk, none⟩ d1 t1).1 d2 t2).2
        ≠ some Intent.LockIntent ∧
    (detection_callback th (detection_callback th ⟨lk, none⟩ d1 t1).1 d2 t2).1.awaySince
        = none := by
  have hsecond :=
    awaySince_cleared_of_le_away th (detection_callback th ⟨lk, none⟩ d1 t1).1 d2 t2 h2
  refine ⟨?_, hsecond.2, hsecond.1⟩
  by_cases hn : d1 ≤ (th.nearbyDistanceCm : WithTop ℚ)
  · rw [detection_callback_nearby th ⟨lk, none⟩ d1 t1 hn]
    cases lk <;> simp [unlock_screen]
  · rw [detection_callback_away_start th ⟨lk, none⟩ d1 t1 rfl hn h1]
    simp

/-- Witness for C2_debounce_no_lock at a concrete input. -/
theorem C2_debounce_no_lock_witness :
    ((300 : ℚ) : WithTop ℚ) < ((350 : ℚ) : WithTop ℚ) ∧
    (detection_callback ⟨100, 300, 5⟩
        (detection_callback ⟨100, 300, 5⟩ ⟨LockState.Unlocked, none⟩
          ((350 : ℚ) : WithTop ℚ) 0).1
        ((50 : ℚ) : WithTop ℚ) 1).1.awaySince = none :=
  ⟨by decide,
    (C2_debounce_no_lock ⟨100, 300, 5⟩ LockState.Unlocked
      ((350 : ℚ) : WithTop ℚ) ((50 : ℚ) : WithTop ℚ) 0 1
      (by decide) (by decide) (by decide)).2.2⟩

/-- C3: a sample in the dead zone (strictly above nearbyDistanceCm, at or
below awayDistanceCm, boundary included) emits no intent, leaves lockState
unchanged and clears awaySince, for every state. -/
theorem C3_deadzone_noop (th : PolicyThresholds) (s : PresenceState)
    (d : WithTop ℚ) (now : ℚ)
    (h1 : (th.nearbyDistanceCm : WithTop ℚ) < d)
    (h2 : d ≤ (th.awayDistanceCm : WithTop ℚ)) :
    detection_callback th s d now = (⟨s.lockState, none⟩, none) :=
  detection_callback_deadzone th s d now (not_le.mpr h1) (not_lt.mpr h2)

/-- Witness for C3_deadzone_noop at the away boundary d = awayDistanceCm. -/
theorem C3_deadzone_noop_witness :
    ((100 : ℚ) : WithTop ℚ) < ((300 : ℚ) : WithTop ℚ) ∧
    detection_callback ⟨100, 300, 5⟩ ⟨LockState.Locked, some 2⟩
        ((300 : ℚ) : WithTop ℚ) 9
      = (⟨LockState.Locked, none⟩, none) :=
  ⟨by decide,
    C3_deadzone_noop ⟨100, 300, 5⟩ ⟨LockState.Locked, some 2⟩
      ((300 : ℚ) : WithTop ℚ) 9 (by decide) (by decide)⟩

/-- C4: a sample at or below nearbyDistanceCm clears awaySince, leaves the
machine Unlocked, and emits an unlock intent exactly when the state was
Locked (no intent when already Unlocked); concretely, Scenario A with
thresholds (100, 300, 5), state Locked, two samples at distance 50 two
seconds apart: the first emits UnlockIntent, the second emits nothing. -/
theorem C4_nearby_unlock (th : PolicyThresholds) (s : PresenceState)
    (d : WithTop ℚ) (now : ℚ) (h : d ≤ (th.nearbyDistanceCm : WithTop ℚ)) :
    ((detection_callback th s d now).1.awaySince = none ∧
      (detection_callback th s d now).1.lockState = LockState.Unlocked ∧
      ((detection_callback th s d now).2 = some Intent.UnlockIntent
        ↔ s.lockState = LockState.Locked) ∧
      (s.lockState = LockState.Unlocked → (detection_callback th s d now).2 = none)) ∧
    runSamples ⟨100, 300, 5⟩ ⟨LockState.Locked, none⟩
        [(((50 : ℚ) : WithTop ℚ), 0), (((50 : ℚ) : WithTop ℚ), 2)]
      = (⟨LockState.Unlocked, none⟩, [some Intent.UnlockIntent, none]) := by
  constructor
  · rw [detection_callback_nearby th s d now h]
    obtain ⟨lk, aw⟩ := s
    cases lk <;> simp [unlock_screen]
  · have ha : detection_callback ⟨100, 300, 5⟩ ⟨LockState.Locked, none⟩
        ((50 : ℚ) : WithTop ℚ) 0
        = (⟨LockState.Unlocked, none⟩, some Intent.UnlockIntent) :=
      detection_callback_nearby ⟨100, 300, 5⟩ ⟨LockState.Locked, none⟩
        ((50 : ℚ) : WithTop ℚ) 0 (by decide)
    have hb : detection_callback ⟨100, 300, 5⟩ ⟨LockState.Unlocked, none⟩
        ((50 : ℚ) : WithTop ℚ) 2
        = (⟨LockState.Unlocked, none⟩, none) :=
      detection_callback_nearby ⟨100, 300, 5⟩ ⟨LockState.Unlocked, none⟩
        ((50 : ℚ) : WithTop ℚ) 2 (by decide)
    simp only [runSamples, ha, hb]

/-- Witness for C4_nearby_unlock at a concrete input. -/
theorem C4_nearby_unlock_witness :
    ((70 : ℚ) : WithTop ℚ) ≤ ((100 : ℚ) : WithTop ℚ) ∧
    (detection_callback ⟨100, 300, 5⟩ ⟨LockState.Locked, some 1⟩
        ((70 : ℚ) : WithTop ℚ) 3).1.awaySince = none :=
  ⟨by decide,
    (C4_nearby_unlock ⟨100, 300, 5⟩ ⟨LockState.Locked, some 1⟩
      ((70 : ℚ) : WithTop ℚ) 3 (by decide)).1.1⟩

/-- C5 (Scenario B): thresholds (100, 300, 5), initial state Unlocked with
awaySince = none; distance 350 at t = 0 starts the timer with no intent,
distance 400 at t = 3 emits nothing and keeps the timer, distance 320 at
t = 6 (elapsed 6 > 5) emits LockIntent, sets lockState = Locked and resets
awaySince to none; the same run expressed as a sample list. -/
theorem C5_scenarioB :
    detection_callback ⟨100, 300, 5⟩ ⟨LockState.Unlocked, none⟩
        ((350 : ℚ) : WithTop ℚ) 0
      = (⟨LockState.Unlocked, some 0⟩, none) ∧
    detection_callback ⟨100, 300, 5⟩ ⟨LockState.Unlocked, some 0⟩
        ((400 : ℚ) : WithTop ℚ) 3
      = (⟨LockState.Unlocked, some 0⟩, none) ∧
    detection_callback ⟨100, 300, 5⟩ ⟨LockState.Unlocked, some 0⟩
        ((320 : ℚ) : WithTop ℚ) 6
      = (⟨LockState.Locked, none⟩, some Intent.LockIntent) ∧
    runSamples ⟨100, 300, 5⟩ ⟨LockState.Unlocked, none⟩
        [(((350 : ℚ) : WithTop ℚ), 0), (((400 : ℚ) : WithTop ℚ), 3),
          (((320 : ℚ) : WithTop ℚ), 6)]
      = (⟨LockState.Locked, none⟩, [none, none, some Intent.LockIntent]) := by
  have h1 : detection_callback ⟨100, 300, 5⟩ ⟨LockState.Unlocked, none⟩
      ((350 : ℚ) : WithTop ℚ) 0
      = (⟨LockState.Unlocked, some 0⟩, none) :=
    detection_callback_away_start ⟨100, 300, 5⟩ ⟨LockState.Unlocked, none⟩
      ((350 : ℚ) : WithTop ℚ) 0 rfl (by decide) (by decide)
  have h2 : detection_callback ⟨100, 300, 5⟩ ⟨LockState.Unlocked, some 0⟩
      ((400 : ℚ) : WithTop ℚ) 3
      = (⟨LockState.Unlocked, some 0⟩, none) :=
    detection_callback_away_wait ⟨100, 300, 5⟩ ⟨LockState.Unlocked, some 0⟩
      ((400 : ℚ) : WithTop ℚ) 3 0 rfl (by decide) (by decide) (by norm_num)
  have h3 : detection_callback ⟨100, 300, 5⟩ ⟨LockState.Unlocked, some 0⟩
      ((320 : ℚ) : WithTop ℚ) 6
      = (⟨LockState.Locked, none⟩, some Intent.LockIntent) :=
    detection_callback_away_fire ⟨100, 300, 5⟩ ⟨LockState.Unlocked, some 0⟩
      ((320 : ℚ) : WithTop ℚ) 6 0 rfl (by decide) (by decide) (by norm_num)
  exact ⟨h1, h2, h3, by simp only [runSamples, h1, h2, h3]⟩

/-- C6: any sample with distance at or below awayDistanceCm (in particular at
or below nearbyDistanceCm) leaves awaySince = none, for every state. -/
theorem C6_sample_clears_timer (th : PolicyThresholds) (s : PresenceState)
    (d : WithTop ℚ) (now : ℚ)
    (h : d ≤ (th.awayDistanceCm : WithTop ℚ) ∨ d ≤ (th.nearbyDistanceCm : WithTop ℚ)) :
    (detection_callback th s d now).1.awaySince = none := by
  rcases h with h | h
  · exact (awaySince_cleared_of_le_away th s d now h).1
  · rw [detection_callback_nearby th s d now h]

/-- Witness for C6_sample_clears_timer at a concrete input. -/
theorem C6_sample_clears_timer_witness :
    ((150 : ℚ) : WithTop ℚ) ≤ ((300 : ℚ) : WithTop ℚ) ∧
    (detection_callback ⟨100, 300, 5⟩ ⟨LockState.Unlocked, some 0⟩
        ((150 : ℚ) : WithTop ℚ) 2).1.awaySince = none :=
  ⟨by decide,
    C6_sample_clears_timer ⟨100, 300, 5⟩ ⟨LockState.Unlocked, some 0⟩
      ((150 : ℚ) : WithTop ℚ) 2 (Or.inl (by decide))⟩

/-- C7: for every choice of calibration parameters, the estimator maps the
sentinel signal strength 0 to the infinite distance. -/
theorem C7_sentinel_infinity (p : CalibrationParams) :
    rssi_to_distance p 0 = ⊤ := by
  simp [rssi_to_distance]

/-- C8: for every non-sentinel signal strength, the estimator returns the
log-distance path-loss formula value, which is non-negative; and with
reference strength -60 and path-loss exponent 2, input -60 yields exactly
100 (one metre). -/
theorem C8_formula (p : CalibrationParams) (s : ℝ) (hs : s ≠ 0) :
    rssi_to_distance p s
        = (((10 : ℝ) ^ ((p.referenceStrengthAt1m - s) / (10 * p.pathLossExponent))
            * 100 : ℝ) : EReal) ∧
    (0 : EReal) ≤ rssi_to_distance p s ∧
    rssi_to_distance ⟨-60, 2⟩ (-60) = ((100 : ℝ) : EReal) := by
  refine ⟨by rw [rssi_to_distance, if_neg hs], ?_, ?_⟩
  · rw [rssi_to_distance, if_neg hs]
    refine EReal.coe_nonneg.mpr ?_
    positivity
  · rw [rssi_to_distance, if_neg (by norm_num : (-60 : ℝ) ≠ 0)]
    norm_num [Real.rpow_zero]

/-- Witness for C8_formula at a concrete input. -/
theorem C8_formula_witness :
    ((-60 : ℝ) ≠ 0) ∧ (0 : EReal) ≤ rssi_to_distance ⟨-60, 2⟩ (-60) :=
  ⟨by norm_num, (C8_formula ⟨-60, 2⟩ (-60) (by norm_num)).2.1⟩

/-- C9 (counterexample): with calibration (-60, 2) (so pathLossExponent > 0),
the inputs -10 < 0 violate strict decrease over the whole input domain: the
sentinel 0 maps to the infinite distance, which is not below the finite
distance of -10. -/
theorem C9_counterexample :
    (0 : ℝ) < (⟨-60, 2⟩ : CalibrationParams).pathLossExponent ∧
    (-10 : ℝ) < 0 ∧
    ¬ rssi_to_distance ⟨-60, 2⟩ 0 < rssi_to_distance ⟨-60, 2⟩ (-10) := by
  refine ⟨by norm_num, by norm_num, ?_⟩
  rw [rssi_to_distance, if_pos rfl]
  exact not_top_lt

/-- C9 (amended): away from the sentinel value 0, the estimator is strictly
decreasing in the signal strength whenever pathLossExponent > 0. -/
theorem C9_strictly_decreasing_off_sentinel (p : CalibrationParams)
    (hp : 0 < p.pathLossExponent) (s1 s2 : ℝ)
    (h1 : s1 ≠ 0) (h2 : s2 ≠ 0) (h12 : s1 < s2) :
    rssi_to_distance p s2 < rssi_to_distance p s1 := by
  rw [rssi_to_distance, rssi_to_distance, if_neg h2, if_neg h1,
    EReal.coe_lt_coe_iff]
  have hden : (0 : ℝ) < 10 * p.pathLossExponent := by linarith
  have hexp : (p.referenceStrengthAt1m - s2) / (10 * p.pathLossExponent)
      < (p.referenceStrengthAt1m - s1) / (10 * p.pathLossExponent) := by
    rw [div_lt_div_iff_of_pos_right hden]
    linarith
  exact mul_lt_mul_of_pos_right
    ((Real.rpow_lt_rpow_left_iff (by norm_num : (1 : ℝ) < 10)).mpr hexp)
    (by norm_num)

/-- Witness for C9_strictly_decreasing_off_sentinel at a concrete input. -/
theorem C9_strictly_decreasing_off_sentinel_witness :
    (-70 : ℝ) < -50 ∧
    rssi_to_distance ⟨-60, 2⟩ (-50) < rssi_to_distance ⟨-60, 2⟩ (-70) :=
  ⟨by norm_num,
    C9_strictly_decreasing_off_sentinel ⟨-60, 2⟩ (by norm_num) (-70) (-50)
      (by norm_num) (by norm_num) (by norm_num)⟩

/-- C10: with valid thresholds, when awaySince = some t0 and a sample with
distance above awayDistanceCm arrives within the debounce window
(now - t0 at most awayDurationSeconds), the whole state is unchanged —
awaySince still anchors at t0 — and no intent is emitted. -/
theorem C10_within_window_frame (th : PolicyThresholds) (hv : th.Valid)
    (s : PresenceState) (t0 : ℚ) (d : WithTop ℚ) (now : ℚ)
    (hs : s.awaySince = some t0)
    (hd : (th.awayDistanceCm : WithTop ℚ) < d)
    (ht : now - t0 ≤ th.awayDurationSeconds) :
    detection_callback th s d now = (s, none) :=
  detection_callback_away_wait th s d now t0 hs
    (not_le_nearby_of_away_lt th hv hd) hd (not_lt.mpr ht)

/-- Witness for C10_within_window_frame at a concrete input. -/
theorem C10_within_window_frame_witness :
    (⟨100, 300, 5⟩ : PolicyThresholds).Valid ∧
    detection_callback ⟨100, 300, 5⟩ ⟨LockState.Unlocked, some 0⟩
        ((400 : ℚ) : WithTop ℚ) 3
      = (⟨LockState.Unlocked, some 0⟩, none) :=
  ⟨by decide,
    C10_within_window_frame ⟨100, 300, 5⟩ (by decide) ⟨LockState.Unlocked, some 0⟩
      0 ((400 : ℚ) : WithTop ℚ) 3 rfl (by decide) (by norm_num)⟩

end AuraLockClaims
